import Mathlib

/-!
Shallow embedding of the SafeErase core (Rust) for checking its
natural-language specification.  Sources embedded:

* `src/core-engine/src/algorithms.rs` — algorithm catalog and pattern data.
* `src/core-engine/src/error.rs` — error taxonomy and recoverability.
* `src/core-engine/src/wipe.rs` — wipe engine orchestration.
* `src/core-engine/src/verification.rs` — post-wipe statistical verification.
* `src/certificate-gen/src/{certificate,crypto,error}.rs` — certificate
  data model, validation, signing and verification.

Machine bytes (`u8`) are modelled as `Nat` values kept below 256 by the
generators (`% 256` where a value enters byte range).  `f64` quantities
are modelled as follows: exact threshold comparisons on success rates are
carried out in `ℚ` (the thresholds 0.95/0.85/0.70/0.01 are exactly the
rationals written below; the `f64` rounding at these comparisons does not
affect any claim settled here); the Shannon-entropy value of a sample is
not representable (it uses `log2` over `f64`), so each function that only
consumes the comparisons `entropy > 7.5` / `entropy < 7.5` receives those
two Boolean outcomes as parameters.  Wall-clock readings (`Utc::now()`,
`Instant`) are supplied by an environment value.  External libraries
(OpenSSL RSA, SHA-256, base64, serde_json) are modelled by their
deterministic functional contracts, as noted at each definition.
-/

namespace SafeErase

/-! ### Algorithm catalog — `src/core-engine/src/algorithms.rs` -/

/-- Bitwise NOT on a `u8` value (`!b` in Rust): for `b < 256` this is
`255 - b`. -/
def byteNot (b : Nat) : Nat := 255 - b % 256

/-- Model of the random sources used by pattern generation:
`random` stands for the per-call OS-entropy-seeded `ChaCha20Rng` byte
stream, `pseudo seed` for the `ChaCha20Rng::seed_from_u64(seed)` stream.
Both are abstract deterministic streams; no settled claim depends on
their values. -/
structure Rng where
  random : Nat → Nat
  pseudo : Nat → Nat → Nat

/-- `WipePattern` from `algorithms.rs`. -/
inductive WipePattern where
  | zeros
  | ones
  | fixed (byte : Nat)
  | random
  | pseudoRandom (seed : Nat)
  | complement
  | pattern (bytes : List Nat)
deriving DecidableEq, Repr

/-- `WipePattern::generate_data(size, previous_data)`.
`rng` models the two ChaCha20 streams (see `Rng`).  For
`Pattern(p)` the Rust code indexes `p[i % p.len()]`; the model uses
`getD _ 0` (Rust would panic on an empty pattern vector; no caller
builds one). -/
def generateData (rng : Rng) (p : WipePattern) (size : Nat)
    (previousData : Option (List Nat)) : List Nat :=
  match p with
  | .zeros => List.replicate size 0
  | .ones => List.replicate size 255
  | .fixed b => List.replicate size (b % 256)
  | .random => (List.range size).map (fun i => rng.random i % 256)
  | .pseudoRandom seed => (List.range size).map (fun i => rng.pseudo seed i % 256)
  | .complement =>
    match previousData with
    | some prev => prev.map byteNot
    | none => List.replicate size 255
  | .pattern pat => (List.range size).map (fun i => pat.getD (i % pat.length) 0)

/-- `WipeAlgorithm` from `algorithms.rs`. -/
inductive WipeAlgorithm where
  | nist80088
  | dod522022M
  | gutmann
  | random
  | zeroFill
  | oneFill
  | ataSecureErase
  | nvmeFormat
  | custom (patterns : List WipePattern)
deriving DecidableEq, Repr

/-- `WipeAlgorithm::gutmann_patterns()` — the fixed 35-pass list. -/
def gutmannPatterns : List WipePattern :=
  [ WipePattern.random, WipePattern.random, WipePattern.random, WipePattern.random,
    WipePattern.pattern [0x55, 0x55, 0x55],
    WipePattern.pattern [0xAA, 0xAA, 0xAA],
    WipePattern.pattern [0x92, 0x49, 0x24],
    WipePattern.pattern [0x49, 0x24, 0x92],
    WipePattern.pattern [0x24, 0x92, 0x49],
    WipePattern.zeros,
    WipePattern.pattern [0x11, 0x11, 0x11],
    WipePattern.pattern [0x22, 0x22, 0x22],
    WipePattern.pattern [0x33, 0x33, 0x33],
    WipePattern.pattern [0x44, 0x44, 0x44],
    WipePattern.pattern [0x55, 0x55, 0x55],
    WipePattern.pattern [0x66, 0x66, 0x66],
    WipePattern.pattern [0x77, 0x77, 0x77],
    WipePattern.pattern [0x88, 0x88, 0x88],
    WipePattern.pattern [0x99, 0x99, 0x99],
    WipePattern.pattern [0xAA, 0xAA, 0xAA],
    WipePattern.pattern [0xBB, 0xBB, 0xBB],
    WipePattern.pattern [0xCC, 0xCC, 0xCC],
    WipePattern.pattern [0xDD, 0xDD, 0xDD],
    WipePattern.pattern [0xEE, 0xEE, 0xEE],
    WipePattern.ones,
    WipePattern.pattern [0x92, 0x49, 0x24],
    WipePattern.pattern [0x49, 0x24, 0x92],
    WipePattern.pattern [0x24, 0x92, 0x49],
    WipePattern.pattern [0x6D, 0xB6, 0xDB],
    WipePattern.pattern [0xB6, 0xDB, 0x6D],
    WipePattern.pattern [0xDB, 0x6D, 0xB6],
    WipePattern.random, WipePattern.random, WipePattern.random, WipePattern.random ]

/-- `WipeAlgorithm::patterns()`. -/
def WipeAlgorithm.patterns : WipeAlgorithm → List WipePattern
  | .nist80088 => [WipePattern.random]
  | .dod522022M => [WipePattern.zeros, WipePattern.ones, WipePattern.random]
  | .gutmann => gutmannPatterns
  | .random => [WipePattern.random]
  | .zeroFill => [WipePattern.zeros]
  | .oneFill => [WipePattern.ones]
  | .ataSecureErase => []  -- Hardware command, no patterns
  | .nvmeFormat => []      -- Hardware command, no patterns
  | .custom ps => ps

/-- `WipeAlgorithm::is_hardware_based()`. -/
def WipeAlgorithm.isHardwareBased : WipeAlgorithm → Bool
  | .ataSecureErase => true
  | .nvmeFormat => true
  | _ => false

/-! ### Error taxonomy — `src/core-engine/src/error.rs` -/

/-- `SafeEraseError` from `error.rs`, one constructor per variant. -/
inductive SafeEraseError where
  | deviceNotFound (s : String)
  | deviceAccessDenied (s : String)
  | deviceBusy (s : String)
  | deviceIoError (s : String)
  | unsupportedDevice (s : String)
  | wipeFailed (s : String)
  | wipeCancelled
  | verificationFailed
  | unsupportedAlgorithm (s : String)
  | insufficientPrivileges
  | systemCommandFailed (s : String)
  | unsupportedPlatform (s : String)
  | certificateError (s : String)
  | cryptographicError (s : String)
  | signatureVerificationFailed
  | invalidConfiguration (s : String)
  | invalidParameter (s : String)
  | timeout (s : String)
  | fileSystemError (s : String)
  | permissionDenied (s : String)
  | networkError (s : String)
  | communicationTimeout
  | internal (s : String)
  | unknown (s : String)
deriving DecidableEq, Repr

/-- `SafeEraseError::is_recoverable()`. -/
def SafeEraseError.isRecoverable : SafeEraseError → Bool
  | .deviceBusy _ => true
  | .communicationTimeout => true
  | .networkError _ => true
  | .timeout _ => true
  | _ => false

/-- The `Display` rendering of `SafeEraseError` (the `#[error("...")]`
attribute strings from `error.rs`); `execute_wipe_operation` stores
`e.to_string()` in `WipeResult::error_message`. -/
def SafeEraseError.display : SafeEraseError → String
  | .deviceNotFound s => "Device not found: " ++ s
  | .deviceAccessDenied s => "Device access denied: " ++ s
  | .deviceBusy s => "Device is busy or locked: " ++ s
  | .deviceIoError s => "Device I/O error: " ++ s
  | .unsupportedDevice s => "Unsupported device type: " ++ s
  | .wipeFailed s => "Wipe operation failed: " ++ s
  | .wipeCancelled => "Wipe operation was cancelled"
  | .verificationFailed => "Wipe verification failed"
  | .unsupportedAlgorithm s => "Unsupported wipe algorithm: " ++ s
  | .insufficientPrivileges => "Insufficient privileges - administrator/root access required"
  | .systemCommandFailed s => "System command failed: " ++ s
  | .unsupportedPlatform s => "Platform not supported: " ++ s
  | .certificateError s => "Certificate generation failed: " ++ s
  | .cryptographicError s => "Cryptographic operation failed: " ++ s
  | .signatureVerificationFailed => "Digital signature verification failed"
  | .invalidConfiguration s => "Invalid configuration: " ++ s
  | .invalidParameter s => "Invalid parameter: " ++ s
  | .timeout s => "Operation timeout: " ++ s
  | .fileSystemError s => "File system error: " ++ s
  | .permissionDenied s => "Permission denied: " ++ s
  | .networkError s => "Network error: " ++ s
  | .communicationTimeout => "Communication timeout"
  | .internal s => "Internal error: " ++ s
  | .unknown s => "Unknown error: " ++ s

/-! ### Verification engine — `src/core-engine/src/verification.rs`

`VerificationEngine` is constructed with `entropy_threshold = 7.5` and
`pattern_detection_threshold = 16`.  Entropy itself is `f64`; every
embedded function that consumes it only consumes the two comparisons
`entropy > 7.5` (`entGt`) and `entropy < 7.5` (`entLt`), which are passed
in as Booleans (for one concrete sample they are the truth values of
those comparisons for its actual Shannon entropy). -/

/-- `VerificationEngine::pattern_detection_threshold` (set in `new()`). -/
def patternDetectionThreshold : Nat := 16

/-- `VerificationStatus` from `verification.rs`. -/
inductive VerificationStatus where
  | passed
  | failed
  | warning
  | inconclusive
deriving DecidableEq, Repr

/-- `PatternType` from `verification.rs`. -/
inductive PatternType where
  | allZeros
  | allOnes
  | repeating
  | random
  | structured
  | suspicious
deriving DecidableEq, Repr

/-- `data.chunks_exact(len)`: the `⌊|data| / len⌋` consecutive
`len`-sized chunks, the remainder dropped (`chunks_exact` never yields a
short chunk; `len = 0` would panic in Rust and yields `[]` here — the
caller iterates `len ≥ 1`). -/
def chunksExact (len : Nat) (data : List Nat) : List (List Nat) :=
  if len = 0 then []
  else (List.range (data.length / len)).map fun i => (data.drop (i * len)).take len

/-- `VerificationEngine::has_repeating_pattern`: some chunk length
`ℓ ∈ [1, min(|data|/4, 64)]` has the leading chunk repeated in more than
`|data| / ℓ / 2` of the exact chunks. -/
def hasRepeatingPattern (data : List Nat) : Bool :=
  if data.length < patternDetectionThreshold then false
  else
    (List.range' 1 (min (data.length / 4) 64)).any fun patternLen =>
      let pat := data.take patternLen
      let matchCount := (chunksExact patternLen data).countP (· = pat)
      decide (matchCount > data.length / patternLen / 2)

/-- The file-system signatures scanned by
`VerificationEngine::has_structured_data`, as byte strings. -/
def fsSignatures : List (List Nat) :=
  [ [0x4E, 0x54, 0x46, 0x53],          -- "NTFS"
    [0x46, 0x41, 0x54, 0x33, 0x32],    -- "FAT32"
    [0x65, 0x78, 0x74, 0x32],          -- "ext2"
    [0x65, 0x78, 0x74, 0x33],          -- "ext3"
    [0x65, 0x78, 0x74, 0x34],          -- "ext4"
    [0x48, 0x46, 0x53, 0x2B],          -- "HFS+"
    [0x41, 0x50, 0x46, 0x53],          -- "APFS"
    [0x55, 0xAA] ]                     -- Boot signature

/-- `data.windows(|sig|).any(|w| w == sig)` for one signature. -/
def containsSignature (data sig : List Nat) : Bool :=
  (List.range (data.length + 1 - sig.length)).any fun i =>
    ((data.drop i).take sig.length) = sig

/-- `VerificationEngine::has_structured_data`. -/
def hasStructuredData (data : List Nat) : Bool :=
  fsSignatures.any (containsSignature data)

/-- `VerificationEngine::detect_pattern_type`; `entGt` is the outcome of
`entropy(data) > 7.5`. -/
def detectPatternType (entGt : Bool) (data : List Nat) : PatternType :=
  if data.all (· = 0) then .allZeros
  else if data.all (· = 0xFF) then .allOnes
  else if hasRepeatingPattern data then .repeating
  else if entGt then .random
  else if hasStructuredData data then .suspicious
  else .structured

/-- The count of all-zero 16-byte windows in `data`
(`data.windows(16).filter(|w| w.iter().all(|&b| b == 0)).count()`). -/
def nullSequenceCount (data : List Nat) : Nat :=
  (List.range (data.length + 1 - 16)).countP fun i =>
    ((data.drop i).take 16).all (· = 0)

/-- `VerificationEngine::detect_anomalies`; `entLt` is the outcome of
`entropy(data) < 7.5` for this sample. -/
def detectAnomalies (data : List Nat) (patternType : PatternType)
    (entLt : Bool) : List String :=
  (if patternType = .suspicious then
    ["Suspicious structured data detected"]
  else if patternType = .random ∧ entLt then
    ["Low entropy in supposedly random data"]
  else []) ++
  (if nullSequenceCount data > data.length / 32 ∧ patternType ≠ .allZeros then
    ["Unexpected null byte sequences"]
  else [])

/-- `SectorAnalysis` from `verification.rs`.  The `f64` field `entropy`
is represented by its two threshold comparisons (`entropyGtThreshold` =
`entropy > 7.5`, `entropyLtThreshold` = `entropy < 7.5`), which are the
only ways the embedded claims consume it; `confidence` and `data_hash`
are omitted (they depend on `f64` arithmetic / SHA-256 and no claim reads
them). -/
structure SectorAnalysis where
  sectorOffset : Nat
  patternType : PatternType
  entropyGtThreshold : Bool
  entropyLtThreshold : Bool
  anomalies : List String
deriving DecidableEq, Repr

/-- `VerificationEngine::analyze_sector` (the pattern-type and anomaly
part; see `SectorAnalysis` for the omitted fields). -/
def analyzeSector (entGt entLt : Bool) (data : List Nat) (offset : Nat) :
    SectorAnalysis :=
  let patternType := detectPatternType entGt data
  { sectorOffset := offset
    patternType := patternType
    entropyGtThreshold := entGt
    entropyLtThreshold := entLt
    anomalies := detectAnomalies data patternType entLt }

/-- `VerificationEngine::is_sample_acceptable(analysis, wipe_result)`.
The Rust function reads only `wipe_result.algorithm`, which is passed
here directly. -/
def isSampleAcceptable (algorithm : WipeAlgorithm) (analysis : SectorAnalysis) :
    Bool :=
  if ¬ analysis.anomalies.isEmpty then false
  else
    match algorithm with
    | .zeroFill => analysis.patternType = .allZeros
    | .oneFill => analysis.patternType = .allOnes
    | .random | .nist80088 =>
        analysis.patternType = .random ∧ analysis.entropyGtThreshold
    | _ => ¬ (analysis.patternType = .suspicious)

/-- The `_` arm of `is_sample_acceptable`'s algorithm match: every
algorithm other than `ZeroFill`, `OneFill`, `Random` and `NIST80088`
("multi-pass algorithms" in the spec). -/
def isMultipassArm : WipeAlgorithm → Bool
  | .zeroFill | .oneFill | .random | .nist80088 => false
  | _ => true

/-- `PatternAnalysis` from `verification.rs`.  `detected_patterns` is
omitted (its entries carry `f64` confidences and no claim reads it). -/
structure PatternAnalysis where
  zeroSectors : Nat
  oneSectors : Nat
  randomSectors : Nat
  suspiciousSectors : List Nat
deriving DecidableEq, Repr

/-- `VerificationEngine::analyze_patterns`: the per-class counts (the
Rust code reads them from the `pattern_counts` map accumulated over the
same analyses) and the offsets of `Suspicious` analyses. -/
def analyzePatterns (analyses : List SectorAnalysis) : PatternAnalysis :=
  { zeroSectors := analyses.countP (·.patternType = .allZeros)
    oneSectors := analyses.countP (·.patternType = .allOnes)
    randomSectors := analyses.countP (·.patternType = .random)
    suspiciousSectors :=
      (analyses.filter (·.patternType = .suspicious)).map (·.sectorOffset) }

/-- `VerificationEngine::determine_overall_result`.  `success_rate` is
`f64` in Rust; it is modelled in `ℚ` with the literal thresholds
`0.95`, `0.85`, `0.70` as exact rationals (the entropy and wipe-result
arguments of the Rust function are unused there and dropped). -/
def determineOverallResult (successRate : ℚ) (patternAnalysis : PatternAnalysis) :
    VerificationStatus :=
  if ¬ patternAnalysis.suspiciousSectors.isEmpty then .failed
  else if successRate ≥ 95 / 100 then .passed
  else if successRate ≥ 85 / 100 then .warning
  else if successRate ≥ 70 / 100 then .inconclusive
  else .failed

/-! ### Wipe engine — `src/core-engine/src/wipe.rs`

The engine's effects are supplied by a `WipeEnv` value: the device-info
snapshot (`Device::get_info` is infallible in `device.rs` — it returns
`Ok(self.info.clone())`), the outcomes of the platform HPA/DCO/flush/
hardware-erase calls, the cancellation token's value at each
`is_cancelled()` poll (polls are numbered in program order: poll 0 is the
check at the top of `execute_wipe_operation`, then one poll per pass
boundary and one per block), the random streams, and the wall-clock
readings (`now` for `Utc::now()`, `elapsed` for `Instant::elapsed`;
claims only inspect whether timestamp fields are set). -/

/-- `WipeStatus` from `wipe.rs`. -/
inductive WipeStatus where
  | initializing
  | detectingHPA
  | clearingHPA
  | detectingDCO
  | clearingDCO
  | wiping
  | verifying
  | completed
  | failed
  | cancelled
deriving DecidableEq, Repr

/-- `WipeOptions` from `wipe.rs`.  Durations are modelled as `Nat`
(only their presence matters to the claims). -/
structure WipeOptions where
  verifyWipe : Bool
  verificationSamples : Nat
  clearHpaDco : Bool
  blockSize : Nat
  maxConcurrentOps : Nat
  operationTimeout : Option Nat
  preferHardwareErase : Bool
  progressInterval : Nat
deriving DecidableEq, Repr

/-- `PerformanceStats` from `wipe.rs`; the `f64` speed fields
(`average_speed`, `peak_speed`) are omitted — they are wall-clock
derived and no claim reads them. -/
structure PerformanceStats where
  totalTime : Nat
  wipeTime : Nat
  verificationTime : Option Nat
deriving DecidableEq, Repr

/-- `WipeResult` from `wipe.rs` (operation id modelled as `Nat`). -/
structure WipeResult where
  operationId : Nat
  devicePath : String
  deviceSerial : String
  deviceModel : String
  algorithm : WipeAlgorithm
  options : WipeOptions
  status : WipeStatus
  startedAt : Nat
  completedAt : Option Nat
  duration : Option Nat
  bytesWiped : Nat
  passesCompleted : Nat
  verificationRequested : Bool
  verificationPassed : Option Bool
  hpaDetected : Bool
  hpaCleared : Bool
  dcoDetected : Bool
  dcoCleared : Bool
  errorMessage : Option String
  performanceStats : PerformanceStats
deriving DecidableEq, Repr

/-- Environment of one `execute_wipe_operation` run (see the section
comment). -/
structure WipeEnv where
  now : Nat
  elapsed : Nat
  deviceSize : Nat
  devicePath : String
  deviceSerial : String
  deviceModel : String
  supportsHpaDco : Bool
  hpaResult : Except SafeEraseError Bool
  dcoResult : Except SafeEraseError Bool
  ataResult : Except SafeEraseError Unit
  nvmeResult : Except SafeEraseError Unit
  flushResult : Except SafeEraseError Unit
  cancelledAt : Nat → Bool
  rng : Rng

/-- `WipeStats` from `wipe.rs`; the `f64` speed fields are omitted (no
claim reads them). -/
structure WipeStats where
  bytesWiped : Nat
  passesCompleted : Nat
deriving DecidableEq, Repr

/-- The block loop of `WipeEngine::wipe_with_pattern`: one cancellation
poll per block, then pattern generation with the previous block's data
threaded for `Complement`.  Returns the bytes written and the next poll
index.  (The write itself is a placeholder in the source.) -/
def wipeWithPatternLoop (env : WipeEnv) (p : WipePattern) (blockSize : Nat) :
    Nat → Nat → Option (List Nat) → Nat → Except SafeEraseError (Nat × Nat)
  | 0, bytesWritten, _, ctr => .ok (bytesWritten, ctr)
  | blocks + 1, bytesWritten, previousData, ctr =>
    if env.cancelledAt ctr then .error .wipeCancelled
    else
      let currentBlockSize := min blockSize (env.deviceSize - bytesWritten)
      let patternData := generateData env.rng p currentBlockSize previousData
      wipeWithPatternLoop env p blockSize blocks
        (bytesWritten + currentBlockSize) (some patternData) (ctr + 1)

/-- `WipeEngine::wipe_with_pattern`: the block size is clamped to 1 MiB
and the device is walked in `ceil(size / block_size)` blocks.  (With
`block_size = 0` the Rust division would panic; the model yields zero
blocks — no claim exercises that input.) -/
def wipeWithPattern (env : WipeEnv) (p : WipePattern) (opts : WipeOptions)
    (ctr : Nat) : Except SafeEraseError (Nat × Nat) :=
  let blockSize := min opts.blockSize (1024 * 1024)
  let totalBlocks := (env.deviceSize + blockSize - 1) / blockSize
  wipeWithPatternLoop env p blockSize totalBlocks 0 none ctr

/-- The pass loop of `WipeEngine::perform_wipe`: one cancellation poll at
each pass boundary, then the block loop for that pattern. -/
def performWipePasses (env : WipeEnv) (opts : WipeOptions) :
    List WipePattern → Nat → Nat → Except SafeEraseError (Nat × Nat)
  | [], bytesWiped, ctr => .ok (bytesWiped, ctr)
  | p :: rest, bytesWiped, ctr =>
    if env.cancelledAt ctr then .error .wipeCancelled
    else
      match wipeWithPattern env p opts (ctr + 1) with
      | .error e => .error e
      | .ok (passBytes, ctr2) =>
        performWipePasses env opts rest (bytesWiped + passBytes) ctr2

/-- The display name of an algorithm (`WipeAlgorithm::info().name`, used
by its `Display` impl). -/
def WipeAlgorithm.displayName : WipeAlgorithm → String
  | .nist80088 => "NIST 800-88"
  | .dod522022M => "DoD 5220.22-M"
  | .gutmann => "Gutmann"
  | .random => "Random"
  | .zeroFill => "Zero Fill"
  | .oneFill => "One Fill"
  | .ataSecureErase => "ATA Secure Erase"
  | .nvmeFormat => "NVMe Format"
  | .custom _ => "Custom"

/-- `WipeEngine::perform_hardware_wipe` (no cancellation polls; the
platform command outcome comes from the environment). -/
def performHardwareWipe (env : WipeEnv) (alg : WipeAlgorithm) :
    Except SafeEraseError WipeStats :=
  match alg with
  | .ataSecureErase =>
    match env.ataResult with
    | .ok _ => .ok { bytesWiped := env.deviceSize, passesCompleted := 1 }
    | .error e => .error e
  | .nvmeFormat =>
    match env.nvmeResult with
    | .ok _ => .ok { bytesWiped := env.deviceSize, passesCompleted := 1 }
    | .error e => .error e
  | _ => .error (.unsupportedAlgorithm alg.displayName)

/-- `WipeEngine::perform_wipe`: hardware dispatch when
`prefer_hardware_erase ∧ is_hardware_based`, otherwise the software pass
loop followed by a cache flush; `passes_completed` is the full pattern
count on the software path. -/
def performWipe (env : WipeEnv) (alg : WipeAlgorithm) (opts : WipeOptions)
    (ctr : Nat) : Except SafeEraseError (WipeStats × Nat) :=
  if opts.preferHardwareErase ∧ alg.isHardwareBased then
    match performHardwareWipe env alg with
    | .ok s => .ok (s, ctr)
    | .error e => .error e
  else
    match performWipePasses env opts alg.patterns 0 ctr with
    | .error e => .error e
    | .ok (bytesWiped, ctr2) =>
      match env.flushResult with
      | .error e => .error e
      | .ok _ =>
        .ok ({ bytesWiped := bytesWiped,
               passesCompleted := alg.patterns.length }, ctr2)

/-- `WipeEngine::is_data_wiped`.  (Rust indexes `data[0]`, panicking on
an empty slice; callers always pass 4096-byte buffers, and the model
returns `false` there.)  The `HashSet` cardinality is the number of
distinct byte values. -/
def isDataWiped (data : List Nat) : Bool :=
  match data with
  | [] => false
  | firstByte :: _ =>
    if data.all (· = firstByte) then true
    else if data.dedup.length > data.length / 4 then true
    else false

/-- The sample loop of `WipeEngine::verify_wipe`: the read is a
placeholder in the source, so each sample buffer stays `vec![0u8; 4096]`
(the computed offsets feed only the commented-out read). -/
def verifyWipeLoop : Nat → Except SafeEraseError Bool
  | 0 => .ok true
  | n + 1 =>
    if isDataWiped (List.replicate 4096 0) then verifyWipeLoop n
    else .ok false

/-- `WipeEngine::verify_wipe` (the engine-internal heuristic check, not
the verification engine): at most 1000 samples; `device.get_info()` is
infallible (`device.rs`), so the only returns are the loop's. -/
def verifyWipe (deviceSize : Nat) (opts : WipeOptions) :
    Except SafeEraseError Bool :=
  let numSamples := min opts.verificationSamples 1000
  verifyWipeLoop numSamples

/-- The initial `WipeResult` value built at the top of
`WipeEngine::execute_wipe_operation`. -/
def initResult (env : WipeEnv) (operationId : Nat) (alg : WipeAlgorithm)
    (opts : WipeOptions) : WipeResult :=
  { operationId := operationId
    devicePath := env.devicePath
    deviceSerial := env.deviceSerial
    deviceModel := env.deviceModel
    algorithm := alg
    options := opts
    status := .initializing
    startedAt := env.now
    completedAt := none
    duration := none
    bytesWiped := 0
    passesCompleted := 0
    verificationRequested := opts.verifyWipe
    verificationPassed := none
    hpaDetected := false
    hpaCleared := false
    dcoDetected := false
    dcoCleared := false
    errorMessage := none
    performanceStats := { totalTime := 0, wipeTime := 0, verificationTime := none } }

/-- Step 1 of `execute_wipe_operation`: detect/clear HPA and DCO when
requested and supported (best effort — a platform failure only logs a
warning and leaves the result untouched). -/
def hpaDcoStep (env : WipeEnv) (opts : WipeOptions) (result : WipeResult) :
    WipeResult :=
  if opts.clearHpaDco ∧ env.supportsHpaDco then
    let result := { result with status := .detectingHPA }
    let result :=
      match env.hpaResult with
      | .ok detected =>
        let result := { result with hpaDetected := detected }
        if detected then
          { result with status := .clearingHPA, hpaCleared := true }
        else result
      | .error _ => result
    let result := { result with status := .detectingDCO }
    match env.dcoResult with
    | .ok detected =>
      let result := { result with dcoDetected := detected }
      if detected then
        { result with status := .clearingDCO, dcoCleared := true }
      else result
    | .error _ => result
  else result

/-- Step 3 of `execute_wipe_operation`: the verification block (run only
when `verify_wipe` is set; `verifyOutcome` is the value of the
`Self::verify_wipe` call). -/
def verifyStep (env : WipeEnv) (opts : WipeOptions)
    (verifyOutcome : Except SafeEraseError Bool) (result : WipeResult) :
    WipeResult :=
  if opts.verifyWipe then
    let result := { result with status := .verifying }
    match verifyOutcome with
    | .ok passed =>
      let result :=
        { result with
          verificationPassed := some passed
          performanceStats :=
            { result.performanceStats with verificationTime := some env.elapsed } }
      if ¬ passed then
        { result with
          status := .failed
          errorMessage := some "Wipe verification failed" }
      else result
    | .error _ =>
      { result with
        verificationPassed := some false
        performanceStats :=
          { result.performanceStats with verificationTime := some env.elapsed } }
  else result

/-- The finalization of `execute_wipe_operation`: `Wiping` is promoted
to `Completed`, and the completion timestamp, duration and total time
are filled in. -/
def finalizeStep (env : WipeEnv) (result : WipeResult) : WipeResult :=
  let result :=
    match result.status with
    | WipeStatus.wiping => { result with status := .completed }
    | _ => result
  { result with
    completedAt := some env.now
    duration := some env.elapsed
    performanceStats := { result.performanceStats with totalTime := env.elapsed } }

/-- `WipeEngine::execute_wipe_operation`, parametrised over the outcome
of the `Self::verify_wipe` call (`verifyOutcome`), mirroring the call
site; `executeWipeOperation` instantiates it with the actual
`verifyWipe`.  Every Rust return in this function is `Ok(result)`
(`get_info` is infallible), so the model returns `WipeResult` directly. -/
def executeWipeOperationWith (env : WipeEnv) (operationId : Nat)
    (alg : WipeAlgorithm) (opts : WipeOptions)
    (verifyOutcome : Except SafeEraseError Bool) : WipeResult :=
  let result := initResult env operationId alg opts
  -- Check for cancellation (poll 0 of the token)
  if env.cancelledAt 0 then
    { result with status := .cancelled }
  else
    let result := hpaDcoStep env opts result
    -- Step 2: perform the actual wipe (polls continue from index 1)
    let result := { result with status := .wiping }
    match performWipe env alg opts 1 with
    | .error e =>
      { result with
        status := .failed
        errorMessage := some e.display
        completedAt := some env.now
        duration := some env.elapsed }
    | .ok (stats, _) =>
      let result :=
        { result with
          bytesWiped := stats.bytesWiped
          passesCompleted := stats.passesCompleted
          performanceStats := { result.performanceStats with wipeTime := env.elapsed } }
      finalizeStep env (verifyStep env opts verifyOutcome result)

/-- `WipeEngine::execute_wipe_operation` with the engine's own
`verify_wipe` plugged into the verification step. -/
def executeWipeOperation (env : WipeEnv) (operationId : Nat)
    (alg : WipeAlgorithm) (opts : WipeOptions) : WipeResult :=
  executeWipeOperationWith env operationId alg opts
    (verifyWipe env.deviceSize opts)

/-- The join outcome of the spawned wipe task in
`WipeEngine::wipe_device`: the task produced a `Result` (`ok` /
`errored`), or it panicked. -/
inductive TaskJoin where
  | ok (r : WipeResult)
  | errored (e : SafeEraseError)
  | panicked (msg : String)
deriving DecidableEq, Repr

/-- `WipeEngine::wipe_device`, viewed as a transformer of the
active-operations registry (modelled as the list of operation ids): the
operation is pushed, the task is awaited (with the optional timeout),
and the `retain` removal runs only on the `Ok` path — every error path
(`timeout`, task error, panic) returns before it.  Returns the call's
result together with the final registry. -/
def wipeDevice (registry : List Nat) (operationId : Nat)
    (opts : WipeOptions) (timedOut : Bool) (join : TaskJoin) :
    Except SafeEraseError WipeResult × List Nat :=
  -- Add to active operations
  let registry := registry ++ [operationId]
  -- Wait for completion or timeout
  let outcome : Except SafeEraseError WipeResult :=
    match opts.operationTimeout with
    | some _ =>
      if timedOut then .error (.timeout "Operation timed out")
      else
        match join with
        | .ok r => .ok r
        | .errored e => .error e
        | .panicked m => .error (.internal ("Operation panicked: " ++ m))
    | none =>
      match join with
      | .ok r => .ok r
      | .errored e => .error e
      | .panicked m => .error (.internal ("Operation panicked: " ++ m))
  match outcome with
  | .error e => (.error e, registry)
  | .ok r => (.ok r, registry.filter (· ≠ operationId))

/-! ### Certificate subsystem — `src/certificate-gen/src/*`

External-library contracts used by `crypto.rs` are modelled as follows.
OpenSSL RSA-2048/SHA-256 signing is a symbolic perfect signature scheme:
a raw signature is the pair (signing key, signed bytes) and verification
checks that pair against the presented public key and data — exactly the
functional contract `sign`/`verify` of the library (its cryptographic
hardness is irrelevant to the settled claims).  `base64`
encode/decode (a lossless transport) is the identity on raw signatures.
SHA-256 is an unspecified deterministic digest, modelled by a concrete
deterministic function (`sha256Model`); only its determinism is used.
`serde_json::to_string` of a certificate is deterministic in the
certificate value; it is modelled by the concrete deterministic encoder
`serializeCertificate`. -/

/-- `CertificateError` from `certificate-gen/src/error.rs`. -/
inductive CertificateError where
  | cryptographicError (s : String)
  | keyGenerationFailed (s : String)
  | signingFailed (s : String)
  | signatureVerificationFailed
  | invalidCertificateFormat (s : String)
  | pdfGenerationFailed (s : String)
  | pdfTemplateError (s : String)
  | fontLoadingFailed (s : String)
  | jsonSerializationFailed (s : String)
  | jsonDeserializationFailed (s : String)
  | fileOperationFailed (s : String)
  | fileNotFound (s : String)
  | permissionDenied (s : String)
  | invalidFileFormat (s : String)
  | templateNotFound (s : String)
  | templateParsingFailed (s : String)
  | templateRenderingFailed (s : String)
  | qrCodeGenerationFailed (s : String)
  | qrCodeDataTooLarge (s : String)
  | certificateValidationFailed (s : String)
  | invalidCertificateData (s : String)
  | missingRequiredField (s : String)
  | invalidTimestamp (s : String)
  | networkError (s : String)
  | verificationServiceUnavailable
  | certificateNotFoundInDatabase
  | invalidConfiguration (s : String)
  | missingConfiguration (s : String)
  | internal (s : String)
  | notSupported (s : String)
deriving DecidableEq, Repr

/-- `SignatureAlgorithm` from `crypto.rs`. -/
inductive SignatureAlgorithm where
  | rsa2048sha256
  | rsa4096sha256
  | ecdsaP256sha256
  | ecdsaP384sha384
deriving DecidableEq, Repr

/-- An OpenSSL public key, identified by the number of the key pair it
belongs to. -/
structure PublicKey where
  keyNum : Nat
deriving DecidableEq, Repr

/-- An OpenSSL private key, identified by the number of the key pair it
belongs to (the pair `(PrivateKey.mk n, PublicKey.mk n)` models one
generated RSA key pair). -/
structure PrivateKey where
  keyNum : Nat
deriving DecidableEq, Repr

/-- `public_key_to_der()`: an injective byte encoding of the public
key. -/
def publicKeyDer (pk : PublicKey) : List Nat := [pk.keyNum]

/-- SHA-256, modelled as a deterministic digest function (only its
determinism is used by the settled claims). -/
def sha256Model (data : List Nat) : List Nat := data.length :: data

/-- One lowercase hex digit (as produced by `hex::encode`). -/
def hexDigit (n : Nat) : Char := ("0123456789abcdef".toList).getD n '0'

/-- `hex::encode`: lowercase hex rendering of a byte list. -/
def hexEncode (bytes : List Nat) : String :=
  String.mk (bytes.flatMap fun b => [hexDigit (b % 256 / 16), hexDigit (b % 16)])

/-- `CertificateSigner::generate_key_id`: hex of the first 8 bytes of
SHA-256 over the DER public key. -/
def generateKeyId (pk : PublicKey) : String :=
  hexEncode ((sha256Model (publicKeyDer pk)).take 8)

/-- A raw RSA signature in the symbolic model: the signing key pair's
number together with the signed bytes.  (`base64` transport is the
identity, so the envelope stores this value directly.) -/
structure RawSignature where
  signerKey : Nat
  signedData : List Nat
deriving DecidableEq, Repr

/-- `CertificateSigner::create_signature` (OpenSSL `Signer` +
`base64::encode_block`, symbolic model). -/
def createSignature (privateKey : PrivateKey) (data : List Nat) : RawSignature :=
  { signerKey := privateKey.keyNum, signedData := data }

/-- `CertificateVerifier::verify_signature` (OpenSSL `Verifier` +
`base64::decode_block`, symbolic model): the signature is valid iff it
was produced over exactly `data` by the private key matching
`publicKey`. -/
def verifySignature (data : List Nat) (signature : RawSignature)
    (publicKey : PublicKey) : Except CertificateError Bool :=
  .ok (decide (signature.signerKey = publicKey.keyNum ∧
               signature.signedData = data))

/-- `CertificateSigner` from `crypto.rs`. -/
structure CertificateSigner where
  privateKey : PrivateKey
  publicKey : PublicKey
  keyId : String
deriving DecidableEq, Repr

/-- `CertificateSigner::new()` for key pair number `keyNum`: matching
private/public keys and `key_id = generate_key_id(public)`. -/
def mkCertificateSigner (keyNum : Nat) : CertificateSigner :=
  { privateKey := { keyNum := keyNum }
    publicKey := { keyNum := keyNum }
    keyId := generateKeyId { keyNum := keyNum } }

/-- `VerificationType` from `verification.rs` (referenced by
certificate `VerificationInfo`). -/
inductive VerificationType where
  | quick
  | standard
  | comprehensive
  | custom
deriving DecidableEq, Repr

/-- `DeviceInfo` from `certificate-gen/src/certificate.rs`. -/
structure DeviceInfo where
  path : String
  serial : String
  model : String
  size : Nat
deriving DecidableEq, Repr

/-- `WipeInfo` from `certificate.rs` (timestamps and duration as
`Nat`). -/
structure WipeInfo where
  algorithm : WipeAlgorithm
  startedAt : Nat
  completedAt : Option Nat
  duration : Option Nat
  passesCompleted : Nat
  verificationPassed : Option Bool
deriving DecidableEq, Repr

/-- `VerificationInfo` from `certificate.rs`; the `f64` success rate is
modelled in `ℚ`. -/
structure VerificationInfo where
  verificationId : Nat
  verificationType : VerificationType
  samplesTested : Nat
  samplesPassed : Nat
  successRate : ℚ
  overallResult : VerificationStatus
deriving DecidableEq, Repr

/-- `ComplianceLevel` from `certificate.rs`. -/
inductive ComplianceLevel where
  | fullyCompliant
  | partiallyCompliant
  | notCompliant
  | notApplicable
deriving DecidableEq, Repr

/-- The certificate-side `SecurityLevel` from `certificate.rs` (five
variants, unlike the four-variant catalog one). -/
inductive CertificateSecurityLevel where
  | basic
  | standard
  | high
  | maximum
  | custom
deriving DecidableEq, Repr

/-- `ComplianceStandard` from `certificate.rs`. -/
structure ComplianceStandard where
  name : String
  version : Option String
  description : String
  requirementsMet : List String
  complianceLevel : ComplianceLevel
deriving DecidableEq, Repr

/-- `ComplianceInfo` from `certificate.rs`. -/
structure ComplianceInfo where
  standardsMet : List ComplianceStandard
  securityLevel : CertificateSecurityLevel
  certificationBody : Option String
  complianceNotes : List String
deriving DecidableEq, Repr

/-- `OrganizationInfo` from `certificate-gen/src/lib.rs`. -/
structure OrganizationInfo where
  name : String
  address : String
  contactEmail : String
  contactPhone : Option String
  website : Option String
  logoPath : Option String
  certificationAuthority : Option String
deriving DecidableEq, Repr

/-- `CertificateData` from `certificate.rs`.  The UUID is a `Nat` (the
nil UUID is `0`); `technical_details`' free-form JSON values are
flattened to strings (no claim reads them); the maps are association
lists. -/
structure CertificateData where
  certificateId : Nat
  generatedAt : Nat
  deviceInfo : DeviceInfo
  wipeInfo : WipeInfo
  verificationInfo : Option VerificationInfo
  complianceInfo : Option ComplianceInfo
  technicalDetails : Option (List (String × String))
  organization : Option OrganizationInfo
  metadata : List (String × String)
deriving DecidableEq, Repr

/-- `WipeCertificate` from `certificate.rs`. -/
structure WipeCertificate where
  data : CertificateData
  version : String
  formatVersion : Nat
deriving DecidableEq, Repr

/-- `SignatureInfo` from `crypto.rs`.  `signature` holds the
base64-transported raw signature (transport = identity);
`certificate_hash` is the hex SHA-256 string. -/
structure SignatureInfo where
  signature : RawSignature
  algorithm : SignatureAlgorithm
  keyId : String
  timestamp : Nat
  certificateHash : String
  signatureVersion : Nat
deriving DecidableEq, Repr

/-- `SignedCertificate` from `certificate.rs`. -/
structure SignedCertificate where
  certificate : WipeCertificate
  signatureInfo : SignatureInfo
  signedAt : Nat
deriving DecidableEq, Repr

/-- `WipeCertificate::validate`.  The success-rate check mirrors the
`f64` comparison `(calculated - stored).abs() > 0.01` exactly; for
`samples_tested = 0` the Rust division yields NaN and the `>` comparison
is false (no error), captured by the `samplesTested > 0` guard. -/
def validateCertificate (c : WipeCertificate) : Except CertificateError Unit :=
  if c.data.certificateId = 0 then
    .error (.invalidCertificateData "Certificate ID cannot be nil")
  else if c.data.deviceInfo.serial.isEmpty then
    .error (.missingRequiredField "Device serial number")
  else if c.data.deviceInfo.model.isEmpty then
    .error (.missingRequiredField "Device model")
  else if (match c.data.wipeInfo.completedAt with
           | some completedAt => decide (completedAt < c.data.wipeInfo.startedAt)
           | none => false) then
    .error (.invalidTimestamp "Completion time cannot be before start time")
  else
    match c.data.verificationInfo with
    | some vi =>
      if vi.samplesPassed > vi.samplesTested then
        .error (.invalidCertificateData "Samples passed cannot exceed samples tested")
      else if vi.samplesTested > 0 ∧
          abs ((vi.samplesPassed : ℚ) / (vi.samplesTested : ℚ) - vi.successRate)
            > 1 / 100 then
        .error (.invalidCertificateData "Success rate does not match sample counts")
      else .ok ()
    | none => .ok ()

/-- `SignedCertificate::validate`. -/
def validateSignedCertificate (sc : SignedCertificate) :
    Except CertificateError Unit :=
  match validateCertificate sc.certificate with
  | .error e => .error e
  | .ok _ =>
    if sc.signedAt < sc.certificate.data.generatedAt then
      .error (.invalidTimestamp "Signature time cannot be before certificate generation time")
    else .ok ()

/-- Byte encoding of a string (length-prefixed code points). -/
def encodeString (s : String) : List Nat :=
  s.length :: (s.toList.map Char.toNat)

/-- Byte encoding of an optional `Nat`. -/
def encodeOptNat : Option Nat → List Nat
  | none => [0]
  | some n => [1, n]

/-- Byte encoding of an optional string. -/
def encodeOptString : Option String → List Nat
  | none => [0]
  | some s => 1 :: encodeString s

/-- Byte encoding of a `Bool`. -/
def encodeBool (b : Bool) : List Nat := [if b then 1 else 0]

/-- Byte encoding of a `WipePattern`. -/
def encodePattern : WipePattern → List Nat
  | .zeros => [0]
  | .ones => [1]
  | .fixed b => [2, b]
  | .random => [3]
  | .pseudoRandom seed => [4, seed]
  | .complement => [5]
  | .pattern bs => 6 :: bs.length :: bs

/-- Byte encoding of a `WipeAlgorithm`. -/
def encodeAlgorithm : WipeAlgorithm → List Nat
  | .nist80088 => [0]
  | .dod522022M => [1]
  | .gutmann => [2]
  | .random => [3]
  | .zeroFill => [4]
  | .oneFill => [5]
  | .ataSecureErase => [6]
  | .nvmeFormat => [7]
  | .custom ps => 8 :: ps.length :: ps.flatMap encodePattern

/-- Byte encoding of a rational (sign, numerator, denominator). -/
def encodeRat (q : ℚ) : List Nat :=
  [if q < 0 then 1 else 0, q.num.natAbs, q.den]

/-- Byte encoding of a string-to-string association list. -/
def encodeStringMap (m : List (String × String)) : List Nat :=
  m.length :: m.flatMap fun kv => encodeString kv.1 ++ encodeString kv.2

/-- Byte encoding of an optional `VerificationInfo`. -/
def encodeVerificationInfo : Option VerificationInfo → List Nat
  | none => [0]
  | some vi =>
    1 :: vi.verificationId ::
      (match vi.verificationType with
       | .quick => 0 | .standard => 1 | .comprehensive => 2 | .custom => 3) ::
      vi.samplesTested :: vi.samplesPassed ::
      (encodeRat vi.successRate ++
        [match vi.overallResult with
         | .passed => 0 | .failed => 1 | .warning => 2 | .inconclusive => 3])

/-- Byte encoding of an optional `ComplianceInfo`. -/
def encodeComplianceInfo : Option ComplianceInfo → List Nat
  | none => [0]
  | some ci =>
    1 :: ci.standardsMet.length ::
      (ci.standardsMet.flatMap fun s =>
        encodeString s.name ++ encodeOptString s.version ++
          encodeString s.description ++
          s.requirementsMet.length :: s.requirementsMet.flatMap encodeString ++
          [match s.complianceLevel with
           | .fullyCompliant => 0 | .partiallyCompliant => 1
           | .notCompliant => 2 | .notApplicable => 3]) ++
      (match ci.securityLevel with
       | .basic => 0 | .standard => 1 | .high => 2
       | .maximum => 3 | .custom => 4) ::
      encodeOptString ci.certificationBody ++
      ci.complianceNotes.length :: ci.complianceNotes.flatMap encodeString

/-- Byte encoding of an optional `OrganizationInfo`. -/
def encodeOrganization : Option OrganizationInfo → List Nat
  | none => [0]
  | some o =>
    1 :: (encodeString o.name ++ encodeString o.address ++
      encodeString o.contactEmail ++ encodeOptString o.contactPhone ++
      encodeOptString o.website ++ encodeOptString o.logoPath ++
      encodeOptString o.certificationAuthority)

/-- `serde_json::to_string(certificate)`: modelled by a concrete
deterministic byte encoding of every certificate field (the claims use
only that the same certificate value serializes to the same bytes). -/
def serializeCertificate (c : WipeCertificate) : List Nat :=
  c.data.certificateId :: c.data.generatedAt ::
    (encodeString c.data.deviceInfo.path ++
     encodeString c.data.deviceInfo.serial ++
     encodeString c.data.deviceInfo.model ++
     c.data.deviceInfo.size ::
     encodeAlgorithm c.data.wipeInfo.algorithm ++
     c.data.wipeInfo.startedAt ::
     encodeOptNat c.data.wipeInfo.completedAt ++
     encodeOptNat c.data.wipeInfo.duration ++
     c.data.wipeInfo.passesCompleted ::
     (match c.data.wipeInfo.verificationPassed with
      | none => [0] | some b => 1 :: encodeBool b) ++
     encodeVerificationInfo c.data.verificationInfo ++
     encodeComplianceInfo c.data.complianceInfo ++
     (match c.data.technicalDetails with
      | none => [0] | some m => 1 :: encodeStringMap m) ++
     encodeOrganization c.data.organization ++
     encodeStringMap c.data.metadata ++
     encodeString c.version ++
     [c.formatVersion])

/-- `CertificateSigner::sign_certificate`: validate, serialize, hash,
sign, and assemble the envelope.  `now` models the two `Utc::now()`
readings (`signature_info.timestamp` and `SignedCertificate::new`'s
`signed_at`). -/
def signCertificate (now : Nat) (signer : CertificateSigner)
    (c : WipeCertificate) : Except CertificateError SignedCertificate :=
  match validateCertificate c with
  | .error e => .error e
  | .ok _ =>
    let certificateJson := serializeCertificate c
    let certificateHash := hexEncode (sha256Model certificateJson)
    let signature := createSignature signer.privateKey certificateJson
    .ok { certificate := c
          signatureInfo :=
            { signature := signature
              algorithm := .rsa2048sha256
              keyId := signer.keyId
              timestamp := now
              certificateHash := certificateHash
              signatureVersion := 1 }
          signedAt := now }

/-- `CertificateVerifier` from `crypto.rs` (the trusted-keys map as an
association list). -/
structure CertificateVerifier where
  trustedKeys : List (String × PublicKey)
deriving DecidableEq, Repr

/-- `trusted_keys.get(key_id)`. -/
def lookupTrustedKey (v : CertificateVerifier) (keyId : String) :
    Option PublicKey :=
  (v.trustedKeys.find? fun kv => kv.1 = keyId).map (·.2)

/-- `CertificateVerifier::verify_certificate`: envelope validation, key
lookup (`SignatureVerificationFailed` if the key id is not trusted),
hash comparison (`Ok(false)` on mismatch), then signature
verification. -/
def verifyCertificate (v : CertificateVerifier) (sc : SignedCertificate) :
    Except CertificateError Bool :=
  match validateSignedCertificate sc with
  | .error e => .error e
  | .ok _ =>
    match lookupTrustedKey v sc.signatureInfo.keyId with
    | none => .error .signatureVerificationFailed
    | some publicKey =>
      let certificateJson := serializeCertificate sc.certificate
      let calculatedHash := hexEncode (sha256Model certificateJson)
      if calculatedHash ≠ sc.signatureInfo.certificateHash then .ok false
      else verifySignature certificateJson sc.signatureInfo.signature publicKey

/-! ## Theorems for the claims -/

/-- C8, counterexample: a generic device I/O error is NOT recoverable —
`is_recoverable` falls through to the `_ => false` arm for
`DeviceIoError`, contradicting the claim that generic I/O errors have a
true recoverability flag. -/
theorem C8_io_error_not_recoverable :
    SafeEraseError.isRecoverable (.deviceIoError "disk read failed") = false := rfl

/-- C8, amended: the recoverability flag is true exactly for
device-busy, communication-timeout, network and operation-timeout
errors, and false for everything else — in particular for generic I/O,
permission-denied, signature-verification-failed, invalid-format and
insufficient-privileges errors. -/
theorem C8_recoverable_exactly (e : SafeEraseError) :
    e.isRecoverable = true ↔
      ((∃ s, e = .deviceBusy s) ∨ e = .communicationTimeout ∨
       (∃ s, e = .networkError s) ∨ (∃ s, e = .timeout s)) := by
  cases e <;> simp [SafeEraseError.isRecoverable]

/-- C10: `Complement.generate_data(size, Some(prev))` is the bytewise
NOT of `prev` — its length is `|prev|`, not the requested `size` — and
with no previous data the requested size is honoured with `0xFF`
fill. -/
theorem C10_complement_generate_data (rng : Rng) (size : Nat) (prev : List Nat) :
    generateData rng .complement size (some prev) = prev.map byteNot ∧
    (generateData rng .complement size (some prev)).length = prev.length ∧
    generateData rng .complement size none = List.replicate size 255 := by
  refine ⟨rfl, ?_, rfl⟩
  simp [generateData]

/-- Evaluation fact: any nonempty all-zero buffer passes
`is_data_wiped` through its all-bytes-equal branch. -/
theorem isDataWiped_replicate_zero' (n : Nat) :
    isDataWiped (List.replicate (n + 1) 0) = true := by
  rw [List.replicate_succ]
  simp [isDataWiped, List.all_eq_true, List.mem_replicate]

theorem isDataWiped_replicate_zero : isDataWiped (List.replicate 4096 0) = true :=
  isDataWiped_replicate_zero' 4095

/-- Every iteration count of the `verify_wipe` sample loop yields
`Ok(true)`, since each sample buffer stays all-zero. -/
theorem verifyWipeLoop_ok (n : Nat) : verifyWipeLoop n = .ok true := by
  induction n with
  | zero => rfl
  | succ n ih =>
    show (if isDataWiped (List.replicate 4096 0) then verifyWipeLoop n
          else Except.ok false) = Except.ok true
    rw [isDataWiped_replicate_zero]
    simpa using ih

/-- C9: the engine-internal `verify_wipe` returns `Ok(true)` for every
device size and options value — the sample buffer is never filled from
the device, `is_data_wiped` accepts the all-zero buffer, and
`device.get_info()` is infallible, so the verification never reports
failure and never errors. -/
theorem C9_internal_verify_always_passes :
    isDataWiped (List.replicate 4096 0) = true ∧
    ∀ (deviceSize : Nat) (opts : WipeOptions),
      verifyWipe deviceSize opts = .ok true :=
  ⟨isDataWiped_replicate_zero, fun _ _ => verifyWipeLoop_ok _⟩

/-- C5: on the analyses of a verification run, the overall verdict is
`Failed` as soon as some sample was classified `Suspicious` (the
suspicious-sector list of the pattern analysis is then nonempty), and
otherwise is determined by the success rate with the 0.95/0.85/0.70
thresholds. -/
theorem C5_overall_verdict (successRate : ℚ) (analyses : List SectorAnalysis) :
    determineOverallResult successRate (analyzePatterns analyses) =
      if analyses.any (fun a => a.patternType = .suspicious) then .failed
      else if successRate ≥ 95 / 100 then .passed
      else if successRate ≥ 85 / 100 then .warning
      else if successRate ≥ 70 / 100 then .inconclusive
      else .failed := by
  have hiff :
      ((analyzePatterns analyses).suspiciousSectors.isEmpty = true) ↔
        ¬ (analyses.any (fun a => a.patternType = .suspicious) = true) := by
    simp [analyzePatterns, List.isEmpty_iff, List.map_eq_nil_iff,
      List.filter_eq_nil_iff, List.any_eq_true]
  by_cases h : analyses.any (fun a => a.patternType = .suspicious) = true
  · have hne : ¬ ((analyzePatterns analyses).suspiciousSectors.isEmpty = true) :=
      fun hE => (hiff.mp hE) h
    simp only [determineOverallResult, h, if_true, if_pos hne]
  · have hE : (analyzePatterns analyses).suspiciousSectors.isEmpty = true :=
      hiff.mpr h
    simp only [determineOverallResult, hE, h, not_true, if_false, if_neg
      (by simp : ¬ ¬ True)]
    simp

/-- Evaluation fact: a `Suspicious` classification always contributes
the "Suspicious structured data detected" anomaly, so its anomaly list
is nonempty. -/
theorem detectAnomalies_suspicious_ne_nil (data : List Nat) (entLt : Bool) :
    detectAnomalies data .suspicious entLt ≠ [] := by
  simp [detectAnomalies]

/-- Evaluation fact: a sample analysis classified `Suspicious` has a
nonempty anomaly list. -/
theorem analyzeSector_suspicious_anomalies (entGt entLt : Bool)
    (data : List Nat) (offset : Nat)
    (hs : (analyzeSector entGt entLt data offset).patternType = .suspicious) :
    (analyzeSector entGt entLt data offset).anomalies.isEmpty = false := by
  have hform : (analyzeSector entGt entLt data offset).anomalies =
      detectAnomalies data (analyzeSector entGt entLt data offset).patternType
        entLt := by
    simp [analyzeSector]
  have hne : (analyzeSector entGt entLt data offset).anomalies ≠ [] := by
    rw [hform, hs]
    exact detectAnomalies_suspicious_ne_nil data entLt
  cases hemp : (analyzeSector entGt entLt data offset).anomalies with
  | nil => exact absurd hemp hne
  | cons a l => rfl

/-- C6, amended: for a multi-pass algorithm (any algorithm other than
`ZeroFill`, `OneFill`, `Random`, `NIST80088`) a sample is accepted iff
its anomaly list is empty.  Acceptance still implies the classification
is not `Suspicious` (a `Suspicious` sample always carries an anomaly),
but the converse of the claim fails: a non-`Suspicious` sample whose
anomaly list is nonempty (e.g. unexpected null-byte sequences) is
rejected. -/
theorem C6_multipass_acceptance (alg : WipeAlgorithm) (entGt entLt : Bool)
    (data : List Nat) (offset : Nat) (h : isMultipassArm alg = true) :
    isSampleAcceptable alg (analyzeSector entGt entLt data offset) =
      (analyzeSector entGt entLt data offset).anomalies.isEmpty := by
  have key : ∀ a : WipeAlgorithm, isMultipassArm a = true →
      isSampleAcceptable a (analyzeSector entGt entLt data offset) =
        ((analyzeSector entGt entLt data offset).anomalies.isEmpty &&
          ! decide ((analyzeSector entGt entLt data offset).patternType = .suspicious)) := by
    intro a ha
    by_cases hemp : (analyzeSector entGt entLt data offset).anomalies.isEmpty = true
    · cases a <;> simp_all [isMultipassArm, isSampleAcceptable]
    · cases a <;> simp_all [isMultipassArm, isSampleAcceptable]
  rw [key alg h]
  by_cases hs : (analyzeSector entGt entLt data offset).patternType = .suspicious
  · rw [analyzeSector_suspicious_anomalies entGt entLt data offset hs]
    simp
  · simp [hs]

/-- Concrete sample buffer refuting C6 as stated: 31 zero bytes followed
by a single 1. -/
def c6Data : List Nat := List.replicate 31 0 ++ [1]

/-- C6, counterexample: after a DoD 5220.22-M (multi-pass) wipe, the
sample `c6Data` is classified `Repeating` — not `Suspicious` — yet it is
NOT accepted, because its null-byte-sequence anomaly makes the anomaly
check fail first. -/
theorem C6_counterexample :
    isSampleAcceptable .dod522022M (analyzeSector false false c6Data 0) = false ∧
    (analyzeSector false false c6Data 0).patternType = .repeating := by
  exact ⟨by decide, by decide⟩

/-- C6, witness for the amended theorem at a concrete multi-pass
algorithm and sample. -/
theorem C6_witness :
    isSampleAcceptable .dod522022M (analyzeSector true false [7] 3) =
      (analyzeSector true false [7] 3).anomalies.isEmpty :=
  C6_multipass_acceptance .dod522022M true false [7] 3 (by decide)

/-- C7, amended: the registry entry is removed exactly when
`wipe_device` returns `Ok` (the spawned task was joined successfully in
time); on a timeout, a task error, or a panic, `wipe_device` returns
`Err` before the removal step and the operation's entry remains in the
registry. -/
theorem C7_registry_removal (registry : List Nat) (operationId : Nat)
    (opts : WipeOptions) (timedOut : Bool) (join : TaskJoin) :
    (∀ r, (wipeDevice registry operationId opts timedOut join).1 = .ok r →
      operationId ∉ (wipeDevice registry operationId opts timedOut join).2) ∧
    (∀ e, (wipeDevice registry operationId opts timedOut join).1 = .error e →
      (wipeDevice registry operationId opts timedOut join).2 =
        registry ++ [operationId]) := by
  rcases hto : opts.operationTimeout with _ | t <;>
    cases join <;> cases timedOut <;>
      constructor <;> intro x hx <;>
        simp_all [wipeDevice, List.mem_filter]

/-- Options with the default 24-hour timeout set, used by the C7
theorems. -/
def c7Opts : WipeOptions :=
  { verifyWipe := true, verificationSamples := 100, clearHpaDco := true,
    blockSize := 1048576, maxConcurrentOps := 1,
    operationTimeout := some 86400, preferHardwareErase := true,
    progressInterval := 1 }

/-- A concrete `WipeResult` used as the joined task value in the C7
theorems. -/
def c7DummyResult : WipeResult :=
  { operationId := 9, devicePath := "/dev/sdz", deviceSerial := "Z",
    deviceModel := "Z", algorithm := .zeroFill, options := c7Opts,
    status := .completed, startedAt := 0, completedAt := some 1,
    duration := some 1, bytesWiped := 0, passesCompleted := 1,
    verificationRequested := false, verificationPassed := none,
    hpaDetected := false, hpaCleared := false, dcoDetected := false,
    dcoCleared := false, errorMessage := none,
    performanceStats := { totalTime := 1, wipeTime := 1, verificationTime := none } }

/-- C7, counterexample: when the operation times out, `wipe_device`
returns the `Timeout` error and operation 5's entry is still in the
registry — it is NOT removed, contradicting the claim that removal
happens regardless of timeout. -/
theorem C7_counterexample :
    (wipeDevice [] 5 c7Opts true (.ok c7DummyResult)).2 = [5] ∧
    (wipeDevice [] 5 c7Opts true (.ok c7DummyResult)).1 =
      .error (.timeout "Operation timed out") :=
  ⟨rfl, rfl⟩

/-- C7, witness for the amended theorem: a successful join with no
timeout does remove the entry. -/
theorem C7_witness :
    5 ∉ (wipeDevice [] 5 { c7Opts with operationTimeout := none } false
          (.ok c7DummyResult)).2 :=
  (C7_registry_removal [] 5 { c7Opts with operationTimeout := none } false
    (.ok c7DummyResult)).1 c7DummyResult rfl

/-- C2, amended: for every certificate that passes validation, signing
it and verifying the result with a verifier whose trust store maps the
signer's key id to the signer's public key returns `Ok(true)` — PROVIDED
the signing-time clock is not earlier than the certificate's
`generated_at` (otherwise verification rejects the envelope with an
`InvalidTimestamp` error instead of returning true, see the
counterexample). -/
theorem C2_sign_verify_roundtrip (keyNum now : Nat) (c : WipeCertificate)
    (v : CertificateVerifier) (sc : SignedCertificate)
    (hvalid : validateCertificate c = .ok ())
    (htime : c.data.generatedAt ≤ now)
    (hkey : lookupTrustedKey v (mkCertificateSigner keyNum).keyId =
      some (mkCertificateSigner keyNum).publicKey)
    (hsign : signCertificate now (mkCertificateSigner keyNum) c = .ok sc) :
    verifyCertificate v sc = .ok true := by
  unfold signCertificate at hsign
  rw [hvalid] at hsign
  injection hsign with hsc
  subst hsc
  simp only [verifyCertificate, validateSignedCertificate, hvalid]
  rw [if_neg (Nat.not_lt.mpr htime)]
  simp only [hkey]
  rw [if_neg (by simp)]
  simp [verifySignature, createSignature, mkCertificateSigner]

/-- Concrete certificate used by the C2 theorems (passes validation). -/
def c2Cert : WipeCertificate :=
  { data :=
      { certificateId := 1
        generatedAt := 0
        deviceInfo :=
          { path := "/dev/sda", serial := "TEST123", model := "Test Drive",
            size := 1000000000 }
        wipeInfo :=
          { algorithm := .nist80088, startedAt := 0, completedAt := some 5,
            duration := some 5, passesCompleted := 1,
            verificationPassed := some true }
        verificationInfo := none
        complianceInfo := none
        technicalDetails := none
        organization := none
        metadata := [] }
    version := "0.1.0"
    formatVersion := 1 }

/-- The signer (key pair 1) used by the C2 theorems. -/
def c2Signer : CertificateSigner := mkCertificateSigner 1

/-- A verifier trusting exactly the C2 signer's public key under its key
id. -/
def c2Verifier : CertificateVerifier :=
  { trustedKeys := [(c2Signer.keyId, c2Signer.publicKey)] }

/-- The signed envelope produced by signing `c2Cert` at time 10. -/
def c2Signed : SignedCertificate :=
  { certificate := c2Cert
    signatureInfo :=
      { signature := createSignature c2Signer.privateKey (serializeCertificate c2Cert)
        algorithm := .rsa2048sha256
        keyId := c2Signer.keyId
        timestamp := 10
        certificateHash := hexEncode (sha256Model (serializeCertificate c2Cert))
        signatureVersion := 1 }
    signedAt := 10 }

/-- A certificate that passes validation but whose `generated_at` (20)
lies after the signing time (10) — validation never inspects
`generated_at`. -/
def c2FutureCert : WipeCertificate :=
  { c2Cert with data := { c2Cert.data with generatedAt := 20 } }

/-- C2, counterexample: `c2FutureCert` passes validation, signs
successfully at time 10, yet verification of the signed result against
the trusting verifier returns an `InvalidTimestamp` error — not true —
because `signed_at < generated_at` fails the envelope validation. -/
theorem C2_counterexample :
    validateCertificate c2FutureCert = .ok () ∧
    (match signCertificate 10 c2Signer c2FutureCert with
     | .ok sc => verifyCertificate c2Verifier sc
     | .error e => .error e) =
      .error (.invalidTimestamp
        "Signature time cannot be before certificate generation time") :=
  ⟨rfl, rfl⟩

/-- C2, witness for the amended theorem at the concrete certificate,
signer and verifier. -/
theorem C2_witness : verifyCertificate c2Verifier c2Signed = .ok true :=
  C2_sign_verify_roundtrip 1 10 c2Cert c2Verifier c2Signed rfl
    (by decide) rfl rfl

/-- Evaluation fact: a hardware wipe that returns `Ok` was dispatched on
a hardware algorithm and reports exactly one pass. -/
theorem performHardwareWipe_ok (env : WipeEnv) (alg : WipeAlgorithm) (s : WipeStats)
    (h : performHardwareWipe env alg = .ok s) :
    alg.isHardwareBased = true ∧ s.passesCompleted = 1 := by
  unfold performHardwareWipe at h
  cases alg <;> try (simp at h)
  case ataSecureErase =>
    rcases ha : env.ataResult with e | u <;> rw [ha] at h <;>
      simp_all [WipeAlgorithm.isHardwareBased]
    exact congrArg WipeStats.passesCompleted h.symm
  case nvmeFormat =>
    rcases ha : env.nvmeResult with e | u <;> rw [ha] at h <;>
      simp_all [WipeAlgorithm.isHardwareBased]
    exact congrArg WipeStats.passesCompleted h.symm

/-- Evaluation fact: a successful `perform_wipe` reports
`|patterns(alg)|` passes on the software path and one pass on the
hardware path. -/
theorem performWipe_ok_passes (env : WipeEnv) (alg : WipeAlgorithm)
    (opts : WipeOptions) (ctr : Nat) (stats : WipeStats) (ctr2 : Nat)
    (h : performWipe env alg opts ctr = .ok (stats, ctr2)) :
    stats.passesCompleted = alg.patterns.length ∨
      (alg.isHardwareBased = true ∧ stats.passesCompleted = 1) := by
  unfold performWipe at h
  by_cases hg : (opts.preferHardwareErase = true ∧ alg.isHardwareBased = true)
  · rw [if_pos hg] at h
    rcases hh : performHardwareWipe env alg with e | s <;> rw [hh] at h
    · exact absurd h (by simp)
    · have h2 := performHardwareWipe_ok env alg s hh
      right
      refine ⟨h2.1, ?_⟩
      have hs : s = stats := by
        simp only [Except.ok.injEq, Prod.mk.injEq] at h
        exact h.1
      exact hs ▸ h2.2
  · rw [if_neg hg] at h
    rcases hp : performWipePasses env opts alg.patterns 0 ctr with e | p <;>
      rw [hp] at h
    · exact absurd h (by simp)
    · rcases p with ⟨bytes, c2⟩
      rcases hf : env.flushResult with e2 | u <;> rw [hf] at h
      · exact absurd h (by simp)
      · left
        simp only [Except.ok.injEq, Prod.mk.injEq] at h
        rw [← h.1]

/-- The HPA/DCO step only touches the status and the four HPA/DCO flags;
`bytes_wiped` is untouched. -/
theorem hpaDcoStep_bytesWiped (env : WipeEnv) (opts : WipeOptions) (r : WipeResult) :
    (hpaDcoStep env opts r).bytesWiped = r.bytesWiped := by
  unfold hpaDcoStep
  split
  · rcases env.hpaResult with e | d <;> rcases env.dcoResult with e2 | d2 <;>
      (try cases d) <;> (try cases d2) <;> simp
  · rfl

/-- The HPA/DCO step leaves `error_message` untouched. -/
theorem hpaDcoStep_errorMessage (env : WipeEnv) (opts : WipeOptions) (r : WipeResult) :
    (hpaDcoStep env opts r).errorMessage = r.errorMessage := by
  unfold hpaDcoStep
  split
  · rcases env.hpaResult with e | d <;> rcases env.dcoResult with e2 | d2 <;>
      (try cases d) <;> (try cases d2) <;> simp
  · rfl

/-- The verification step leaves `passes_completed` untouched. -/
theorem verifyStep_passesCompleted (env : WipeEnv) (opts : WipeOptions)
    (vOut : Except SafeEraseError Bool) (r : WipeResult) :
    (verifyStep env opts vOut r).passesCompleted = r.passesCompleted := by
  unfold verifyStep
  split
  · rcases vOut with e | passed
    · simp
    · cases passed <;> simp
  · rfl

/-- Finalization leaves `passes_completed` untouched. -/
theorem finalizeStep_passesCompleted (env : WipeEnv) (r : WipeResult) :
    (finalizeStep env r).passesCompleted = r.passesCompleted := by
  unfold finalizeStep
  rcases r.status <;> simp

/-- Deterministic stand-in for the random byte streams used by the
concrete wipe-engine runs below (the settled claims never read generated
bytes). -/
def devRng : Rng := { random := fun _ => 0, pseudo := fun _ _ => 0 }

/-- A 4-byte device with every platform call succeeding and no
cancellation, used by the concrete wipe-engine runs below. -/
def envBase : WipeEnv :=
  { now := 7, elapsed := 3, deviceSize := 4, devicePath := "/dev/sda",
    deviceSerial := "SER001", deviceModel := "Model X", supportsHpaDco := false,
    hpaResult := .ok false, dcoResult := .ok false, ataResult := .ok (),
    nvmeResult := .ok (), flushResult := .ok (),
    cancelledAt := fun _ => false, rng := devRng }

/-- `envBase` with the cancellation token tripping after the initial
poll (poll 0 reads false, every later poll reads true): the cancellation
arrives while the operation is running. -/
def envCancelMid : WipeEnv := { envBase with cancelledAt := fun n => decide (1 ≤ n) }

/-- `envBase` with the token already tripped at the initial poll. -/
def envCancelAll : WipeEnv := { envBase with cancelledAt := fun _ => true }

/-- Options for the concrete runs: 2-byte blocks, no verification, no
timeout, software path. -/
def optsNoVerify : WipeOptions :=
  { verifyWipe := false, verificationSamples := 100, clearHpaDco := false,
    blockSize := 2, maxConcurrentOps := 1, operationTimeout := none,
    preferHardwareErase := false, progressInterval := 1 }

/-- `optsNoVerify` with post-wipe verification requested. -/
def optsVerify : WipeOptions := { optsNoVerify with verifyWipe := true }

/-- C1, amended: a token already tripped at the operation's initial poll
yields status `Cancelled` with `bytes_wiped = 0` and `completed_at`
NOT set; a token tripped after that (observed inside `perform_wipe`)
surfaces as the `WipeCancelled` error, and the result has status
`Failed` — not `Cancelled` — with the cancellation message,
`completed_at` set, and `bytes_wiped = 0` (the partial byte count is
discarded with the erred `perform_wipe`). -/
theorem C1_cancellation_behaviour (env : WipeEnv) (opId : Nat)
    (alg : WipeAlgorithm) (opts : WipeOptions) :
    (env.cancelledAt 0 = true →
      (executeWipeOperation env opId alg opts).status = .cancelled ∧
      (executeWipeOperation env opId alg opts).bytesWiped = 0 ∧
      (executeWipeOperation env opId alg opts).completedAt = none) ∧
    (env.cancelledAt 0 = false →
      performWipe env alg opts 1 = .error .wipeCancelled →
      (executeWipeOperation env opId alg opts).status = .failed ∧
      (executeWipeOperation env opId alg opts).errorMessage =
        some "Wipe operation was cancelled" ∧
      (executeWipeOperation env opId alg opts).completedAt = some env.now ∧
      (executeWipeOperation env opId alg opts).bytesWiped = 0) := by
  constructor
  · intro hc
    unfold executeWipeOperation executeWipeOperationWith
    rw [if_pos hc]
    simp [initResult]
  · intro hc hw
    unfold executeWipeOperation executeWipeOperationWith
    rw [if_neg (by simp [hc]), hw]
    refine ⟨rfl, rfl, rfl, ?_⟩
    simp [hpaDcoStep_bytesWiped, initResult]

/-- C1, counterexample: the token trips after the initial poll (a
non-terminal, running state, as the claim allows), and `wipe_device`'s
result has status `Failed`, not `Cancelled`. -/
theorem C1_counterexample :
    envCancelMid.cancelledAt 0 = false ∧
    envCancelMid.cancelledAt 1 = true ∧
    (executeWipeOperation envCancelMid 1 .zeroFill optsNoVerify).status = .failed ∧
    ¬ (executeWipeOperation envCancelMid 1 .zeroFill optsNoVerify).status =
        .cancelled := by
  refine ⟨rfl, rfl, by decide, by decide⟩

/-- C1, witness for the amended theorem: both branches applied at
concrete runs. -/
theorem C1_witness :
    (executeWipeOperation envCancelAll 2 .zeroFill optsNoVerify).status =
      .cancelled ∧
    (executeWipeOperation envCancelMid 1 .zeroFill optsNoVerify).errorMessage =
      some "Wipe operation was cancelled" :=
  ⟨((C1_cancellation_behaviour envCancelAll 2 .zeroFill optsNoVerify).1 rfl).1,
   ((C1_cancellation_behaviour envCancelMid 1 .zeroFill optsNoVerify).2 rfl
      rfl).2.1⟩

/-- C3: every `WipeResult` that comes out of `execute_wipe_operation`
with status `Completed` reports either `|patterns(alg)|` completed
passes (software path — this also covers a hardware algorithm with
`prefer_hardware_erase` off, whose pattern list is empty) or, for a
hardware-based algorithm, exactly one pass. -/
theorem C3_completed_passes (env : WipeEnv) (opId : Nat) (alg : WipeAlgorithm)
    (opts : WipeOptions)
    (h : (executeWipeOperation env opId alg opts).status = .completed) :
    (executeWipeOperation env opId alg opts).passesCompleted = alg.patterns.length ∨
      (alg.isHardwareBased = true ∧
        (executeWipeOperation env opId alg opts).passesCompleted = 1) := by
  unfold executeWipeOperation executeWipeOperationWith at h ⊢
  by_cases hc : env.cancelledAt 0 = true
  · rw [if_pos hc] at h
    simp [initResult] at h
  · rw [if_neg hc] at h ⊢
    rcases hw : performWipe env alg opts 1 with e | ⟨stats, ctr2⟩
    · rw [hw] at h
      simp at h
    · simp only [finalizeStep_passesCompleted, verifyStep_passesCompleted]
      simpa using performWipe_ok_passes env alg opts 1 stats ctr2 hw

/-- C3, witness: a completed three-pass DoD wipe on the concrete device
reports 3 completed passes. -/
theorem C3_witness :
    (executeWipeOperation envBase 1 .dod522022M optsNoVerify).passesCompleted =
      (WipeAlgorithm.patterns .dod522022M).length ∨
      (WipeAlgorithm.isHardwareBased .dod522022M = true ∧
        (executeWipeOperation envBase 1 .dod522022M optsNoVerify).passesCompleted = 1) :=
  C3_completed_passes envBase 1 .dod522022M optsNoVerify (by decide)

/-- C4, amended: with verification enabled and the wipe itself
succeeding, a verification call that reports failure (`Ok(false)`)
yields status `Failed` with message "Wipe verification failed",
`verification_passed = Some(false)` and the verification timing set —
but a verification call that returns an error only fills
`verification_passed = Some(false)` and the timing: the status is NOT
set to `Failed` (it stays `Verifying`) and no error message is
recorded.  (With the engine's actual `verify_wipe` neither case occurs,
see C9; this settles the claim against the handler at the call site.) -/
theorem C4_verification_failure_handling (env : WipeEnv) (opId : Nat)
    (alg : WipeAlgorithm) (opts : WipeOptions) (stats : WipeStats) (ctr2 : Nat)
    (e : SafeEraseError)
    (hc : env.cancelledAt 0 = false)
    (hv : opts.verifyWipe = true)
    (hw : performWipe env alg opts 1 = .ok (stats, ctr2)) :
    ((executeWipeOperationWith env opId alg opts (.ok false)).status = .failed ∧
     (executeWipeOperationWith env opId alg opts (.ok false)).errorMessage =
       some "Wipe verification failed" ∧
     (executeWipeOperationWith env opId alg opts (.ok false)).verificationPassed =
       some false ∧
     (executeWipeOperationWith env opId alg opts
       (.ok false)).performanceStats.verificationTime = some env.elapsed) ∧
    ((executeWipeOperationWith env opId alg opts (.error e)).status = .verifying ∧
     (executeWipeOperationWith env opId alg opts (.error e)).errorMessage = none ∧
     (executeWipeOperationWith env opId alg opts (.error e)).verificationPassed =
       some false ∧
     (executeWipeOperationWith env opId alg opts
       (.error e)).performanceStats.verificationTime = some env.elapsed) := by
  unfold executeWipeOperationWith
  rw [hw]
  constructor
  · simp [hc, verifyStep, finalizeStep, hv]
  · simp [hc, verifyStep, finalizeStep, hv, hpaDcoStep_errorMessage, initResult]

/-- C4, counterexample: when the verification call errors, the returned
result keeps `verification_passed = Some(false)` but its status is
`Verifying` — NOT `Failed` — and no error message is set, contradicting
the claim for the "itself errors" case. -/
theorem C4_counterexample :
    (executeWipeOperationWith envBase 1 .zeroFill optsVerify
        (.error (.internal "read failed"))).verificationPassed = some false ∧
    (executeWipeOperationWith envBase 1 .zeroFill optsVerify
        (.error (.internal "read failed"))).status = .verifying ∧
    ¬ (executeWipeOperationWith envBase 1 .zeroFill optsVerify
        (.error (.internal "read failed"))).status = .failed ∧
    (executeWipeOperationWith envBase 1 .zeroFill optsVerify
        (.error (.internal "read failed"))).errorMessage = none := by
  refine ⟨by decide, by decide, by decide, by decide⟩

/-- C4, witness for the amended theorem at a concrete run. -/
theorem C4_witness :
    (executeWipeOperationWith envBase 1 .zeroFill optsVerify (.ok false)).status =
      .failed :=
  (C4_verification_failure_handling envBase 1 .zeroFill optsVerify
    { bytesWiped := 4, passesCompleted := 1 } 4 (.internal "read failed")
    rfl rfl rfl).1.1

end SafeErase
